import Mathlib

/-!
Verification of the ASH floorplan georeferencing core.

The definitions below are shallow embeddings of the TypeScript source:
JavaScript numbers are modelled as exact rationals (`ℚ`), records as
structures, `null`/`undefined` as `Option`, and the JS `%` operator by
`jsMod` (remainder truncated toward zero).  Record objects keyed by
strings (`Record<string, T>`) are modelled as association lists where
`{...obj, [k]: v}` replaces an existing key in place and appends a new
key at the end, matching JS object-literal semantics.
-/

set_option maxRecDepth 10000

namespace ASH

/-- `Coordinates` from src/types/index.ts: a geographic coordinate pair. -/
structure Coordinates where
  latitude : ℚ
  longitude : ℚ
deriving DecidableEq

/-- `Floorplan` from src/types/index.ts.  `centerCoordinates` is modelled as an
`Option` because the projectors guard on its absence (`!floorplan.centerCoordinates`). -/
structure Floorplan where
  id : String
  imageUri : String
  centerCoordinates : Option Coordinates
  rotation : ℚ
  scale : ℚ
  floorNumber : String
deriving DecidableEq

/-- `calculateFloorplanPosition` from the PDF export module
(src/unnamed/part_000 lines 89-113, identical copy in part_002): percentage
position of a marker on a floorplan, `null` when the frame is invalid or the
computed position falls outside `[-20, 120]` in either axis. -/
def calculateFloorplanPosition (markerCoords : Coordinates) (floorplan : Floorplan) :
    Option (ℚ × ℚ) :=
  match floorplan.centerCoordinates with
  | none => none
  | some center =>
    if floorplan.scale ≤ 0 then
      none
    else
      let deltaLat := markerCoords.latitude - center.latitude
      let deltaLng := markerCoords.longitude - center.longitude
      let latDelta := floorplan.scale
      let lngDelta := if 0 < floorplan.rotation then floorplan.rotation else floorplan.scale
      let x := 50 + deltaLng / lngDelta * 100
      let y := 50 - deltaLat / latDelta * 100
      if -20 ≤ x ∧ x ≤ 120 ∧ -20 ≤ y ∧ y ≤ 120 then some (x, y) else none

/-- `calculatePosition` from the capture component (src/unnamed/part_004 lines
225-250): pixel position of a marker on the capture canvas.  Unlike
`calculateFloorplanPosition` it never rejects a result by range. -/
def calculatePosition (markerCoords : Coordinates) (floorplan : Floorplan)
    (width height : ℚ) : Option (ℚ × ℚ) :=
  match floorplan.centerCoordinates with
  | none => none
  | some center =>
    if floorplan.scale ≤ 0 then
      none
    else
      let deltaLat := markerCoords.latitude - center.latitude
      let deltaLng := markerCoords.longitude - center.longitude
      let latDelta := floorplan.scale
      let lngDelta := if 0 < floorplan.rotation then floorplan.rotation else floorplan.scale
      let xPercent := 50 + deltaLng / lngDelta * 100
      let yPercent := 50 - deltaLat / latDelta * 100
      some (xPercent / 100 * width, yPercent / 100 * height)

/-- The reference frame of E2E scenario 1: center `(40.0, -74.0)`,
`scale = 0.01`, `rotationField = 0`. -/
def frameE2E1 : Floorplan :=
  { id := "fp1"
    imageUri := "img1"
    centerCoordinates := some ⟨40, -74⟩
    rotation := 0
    scale := 1 / 100
    floorNumber := "1" }

/-- `KeyItem` from src/types/index.ts (the `coordinatesRelativeToFloor` and
`originalAssetId` fields are never read by the verified core and are elided). -/
structure KeyItem where
  id : String
  photoUri : String
  coordinates : Option Coordinates
  direction : Option ℚ
  floorNumber : String
  name : String
  notes : String
deriving DecidableEq

/-- `Floor` from src/types/index.ts. -/
structure Floor where
  floorplan : Option Floorplan
  keyitems : List KeyItem
deriving DecidableEq

/-- The entries of a `Record<string, Floor>` in JS property order. -/
abbrev FloorEntries := List (String × Floor)

/-- The distinguished pseudo-floor identifier. -/
def unassignedStr : String := "unassigned"

/-- JS `parseInt(s, 10)`: an optional sign followed by leading decimal digits;
`NaN` (here `none`) when no digit is present. -/
def parseIntJS (s : String) : Option Int :=
  let go : Int → List Char → Option Int := fun sign cs =>
    let digits := cs.takeWhile Char.isDigit
    if digits.isEmpty then none
    else some (sign * digits.foldl (fun acc c => acc * 10 + ((c.toNat : Int) - ('0'.toNat : Int))) 0)
  match s.toList with
  | '-' :: rest => go (-1) rest
  | '+' :: rest => go 1 rest
  | cs => go 1 cs

/-- `a.localeCompare(b)` as used on plain ASCII floor names: sign of the
lexicographic comparison. -/
def localeCompareInt (a b : String) : Int :=
  match compare a b with
  | .lt => -1
  | .eq => 0
  | .gt => 1

/-- The floor-sorting comparator of `exportPhotoKeyToPdf`
(src/unnamed/part_000 lines 492-501, src/unnamed/part_002 lines 868-877):
`"unassigned"` sorts after everything, numeric identifiers ascending,
non-numeric identifiers after numeric ones in locale order. -/
def floorCompare (a b : String) : Int :=
  if a = unassignedStr then 1
  else if b = unassignedStr then -1
  else
    match parseIntJS a, parseIntJS b with
    | none, none => localeCompareInt a b
    | none, some _ => 1
    | some _, none => -1
    | some numA, some numB => numA - numB

/-- Stable insertion of `x` into `l` with respect to a JS comparator:
`x` is placed before the first element it does not strictly follow. -/
def insertByCompare (cmp : α → α → Int) (x : α) : List α → List α
  | [] => [x]
  | y :: ys => if cmp x y ≤ 0 then x :: y :: ys else y :: insertByCompare cmp x ys

/-- Stable sort by a JS comparator (JS `Array.prototype.sort` is stable). -/
def sortByCompare (cmp : α → α → Int) : List α → List α
  | [] => []
  | x :: xs => insertByCompare cmp x (sortByCompare cmp xs)

/-- `floorEntries.sort(...)` from `exportPhotoKeyToPdf`. -/
def sortFloorEntries (entries : FloorEntries) : FloorEntries :=
  sortByCompare (fun a b => floorCompare a.1 b.1) entries

/-- Phase 4 of `exportPhotoKeyToPdf` (src/unnamed/part_002 lines 890-897) and
`itemIndices` of PdfExportContainer.tsx (lines 87-103): the 0-based global
index of every item in sorted-floor-then-insertion order. -/
def itemIndexMap (floors : FloorEntries) : List (String × Nat) :=
  (((sortFloorEntries floors).flatMap fun e => e.2.keyitems).enum).map fun p => (p.2.id, p.1)

/-- The 1-based marker number rendered for an item (`index + 1` at every
render site of the exporters). -/
def globalNumber (floors : FloorEntries) (itemId : String) : Option Nat :=
  ((itemIndexMap floors).lookup itemId).map (· + 1)

/-- One readiness callback delivered to the capture component
(src/components/FloorplanCapture.tsx, src/unnamed/part_013). -/
inductive CaptureEvent
  | mapReady
  | imageLoad
deriving DecidableEq

/-- The two readiness flags of a capture unit (`mapReady`, `imageLoaded`). -/
structure CaptureFlags where
  mapReady : Bool
  imageLoaded : Bool
deriving DecidableEq

/-- Both flags start false (`useState(false)` for each). -/
def initialFlags : CaptureFlags := ⟨false, false⟩

/-- Effect of one readiness callback on the flags. -/
def applyEvent : CaptureFlags → CaptureEvent → CaptureFlags
  | s, .mapReady => { s with mapReady := true }
  | s, .imageLoad => { s with imageLoaded := true }

/-- The settle delay (`setTimeout(..., 500)`) applied before `captureRef`. -/
def SETTLE_MS : Nat := 500

/-- A scheduled serialization of the composed view, tagged with the settle
delay that precedes it. -/
structure CaptureRequest where
  settleMs : Nat
deriving DecidableEq

/-- Deliver one readiness callback and run the capture effect of
FloorplanCapture.tsx lines 80-84: the effect re-runs when a dependency
changed and schedules `doCapture` exactly when both flags are true. -/
def capStep (s : CaptureFlags) (e : CaptureEvent) : CaptureFlags × Option CaptureRequest :=
  let s' := applyEvent s e
  if s' ≠ s ∧ s'.mapReady ∧ s'.imageLoaded then (s', some ⟨SETTLE_MS⟩) else (s', none)

/-- Run a capture unit over a whole arrival order of readiness callbacks,
collecting the scheduled serializations. -/
def capRun : CaptureFlags → List CaptureEvent → CaptureFlags × List CaptureRequest
  | s, [] => (s, [])
  | s, e :: es =>
    let step := capStep s e
    let rest := capRun step.1 es
    (rest.1, step.2.toList ++ rest.2)

/-- Result of the platform `captureRef` call: an encoded string or a thrown
error. -/
inductive CaptureOutcome
  | ok (base64 : String)
  | err
deriving DecidableEq

/-- The scheme-and-media-type head of the produced data URI. -/
def dataUriHead : String := "data:image/png;base64,"

/-- The result-validation branch of `doCapture`
(src/components/FloorplanCapture.tsx lines 60-78, src/unnamed/part_013
lines 100-118): a base64 payload longer than 1000 characters is passed to the
caller as a data URI, anything else (including a thrown error) becomes the
empty string. -/
def handleCaptureResult : CaptureOutcome → String
  | .ok base64 => if base64 ≠ "" ∧ 1000 < base64.length then dataUriHead ++ base64 else ""
  | .err => ""

/-- Adjustment step constants of FloorplanAdjustmentView.tsx lines 12-17. -/
def COORD_STEP : ℚ := 5 / 100000

def ROTATION_STEP : ℚ := 5

def SCALE_STEP : ℚ := 1 / 10

def MIN_SCALE : ℚ := 1 / 5

def MAX_SCALE : ℚ := 3

/-- The local Mode A adjustment state of FloorplanAdjustmentView.tsx
(`centerLat`, `centerLng`, `rotation`, `scale`). -/
structure AdjustState where
  centerLat : ℚ
  centerLng : ℚ
  rotation : ℚ
  scale : ℚ
deriving DecidableEq

/-- JS truncation toward zero of a rational. -/
def jsTrunc (q : ℚ) : Int := if 0 ≤ q then ⌊q⌋ else -⌊-q⌋

/-- The JS remainder operator `a % b` (sign follows the dividend). -/
def jsMod (a b : ℚ) : ℚ := a - b * (jsTrunc (a / b) : ℚ)

/-- `moveUp` (FloorplanAdjustmentView.tsx line 117). -/
def moveUp (s : AdjustState) : AdjustState := { s with centerLat := s.centerLat + COORD_STEP }

/-- `moveDown` (line 118). -/
def moveDown (s : AdjustState) : AdjustState := { s with centerLat := s.centerLat - COORD_STEP }

/-- `moveLeft` (line 119). -/
def moveLeft (s : AdjustState) : AdjustState := { s with centerLng := s.centerLng - COORD_STEP }

/-- `moveRight` (line 120). -/
def moveRight (s : AdjustState) : AdjustState := { s with centerLng := s.centerLng + COORD_STEP }

/-- `sizeUp` (line 123): scale step clamped above at `MAX_SCALE`. -/
def sizeUp (s : AdjustState) : AdjustState := { s with scale := min (s.scale + SCALE_STEP) MAX_SCALE }

/-- `sizeDown` (line 124): scale step clamped below at `MIN_SCALE`. -/
def sizeDown (s : AdjustState) : AdjustState := { s with scale := max (s.scale - SCALE_STEP) MIN_SCALE }

/-- `rotateClockwise` (line 127): `(prev + ROTATION_STEP) % 360`. -/
def rotateClockwise (s : AdjustState) : AdjustState :=
  { s with rotation := jsMod (s.rotation + ROTATION_STEP) 360 }

/-- `rotateCounterClockwise` (line 128): `(prev - ROTATION_STEP + 360) % 360`. -/
def rotateCounterClockwise (s : AdjustState) : AdjustState :=
  { s with rotation := jsMod (s.rotation - ROTATION_STEP + 360) 360 }

/-- The update record passed to `onSave`. -/
structure FrameUpdates where
  centerCoordinates : Coordinates
  rotation : ℚ
  scale : ℚ
deriving DecidableEq

/-- `handleSave` (FloorplanAdjustmentView.tsx lines 103-109): the adjustment
state is written back verbatim. -/
def handleSave (s : AdjustState) : FrameUpdates :=
  ⟨⟨s.centerLat, s.centerLng⟩, s.rotation, s.scale⟩

/-- Seeding of the adjustment state from the existing frame
(FloorplanAdjustmentView.tsx lines 39-42); the view reads
`floorplan.centerCoordinates.latitude` directly, so the center must be
present. -/
def seedAdjustState (c : Coordinates) (fp : Floorplan) : AdjustState :=
  ⟨c.latitude, c.longitude, fp.rotation, fp.scale⟩

/-- `markersWithCoords` (FloorplanAdjustmentView.tsx lines 45-49): items with
GPS coordinates, paired with their original index. -/
def markersWithCoords (keyitems : List KeyItem) : List (Nat × KeyItem) :=
  keyitems.enum.filter fun p => p.2.coordinates.isSome

/-- Coordinate of a marker entry (only used on entries whose coordinates are
present). -/
def coordOf (p : Nat × KeyItem) : Coordinates := p.2.coordinates.getD ⟨0, 0⟩

/-- `Math.min` over a nonempty spread; the empty case is unreachable. -/
def listMin : List ℚ → ℚ
  | [] => 0
  | x :: xs => xs.foldl min x

/-- `Math.max` over a nonempty spread; the empty case is unreachable. -/
def listMax : List ℚ → ℚ
  | [] => 0
  | x :: xs => xs.foldl max x

/-- Bounding data of the geotagged markers. -/
structure MarkerBounds where
  minLat : ℚ
  maxLat : ℚ
  minLng : ℚ
  maxLng : ℚ
  centerLat : ℚ
  centerLng : ℚ
  latSpan : ℚ
  lngSpan : ℚ
deriving DecidableEq

/-- `markerBounds` (FloorplanAdjustmentView.tsx lines 52-73): `null` when no
marker carries GPS coordinates, otherwise the marker bounding box with a
minimum span of `0.0005` per axis. -/
def markerBounds (keyitems : List KeyItem) : Option MarkerBounds :=
  match markersWithCoords keyitems with
  | [] => none
  | m :: ms =>
    let lats := (m :: ms).map fun p => (coordOf p).latitude
    let lngs := (m :: ms).map fun p => (coordOf p).longitude
    let minLat := listMin lats
    let maxLat := listMax lats
    let minLng := listMin lngs
    let maxLng := listMax lngs
    some
      { minLat := minLat
        maxLat := maxLat
        minLng := minLng
        maxLng := maxLng
        centerLat := (minLat + maxLat) / 2
        centerLng := (minLng + maxLng) / 2
        latSpan := max (maxLat - minLat) (5 / 10000)
        lngSpan := max (maxLng - minLng) (5 / 10000) }

/-- `overlayBounds` (FloorplanAdjustmentView.tsx lines 131-149): SW and NE
corners of the semi-transparent floorplan overlay. -/
def overlayBounds (keyitems : List KeyItem) (centerLat centerLng scaleMult : ℚ) :
    Option ((ℚ × ℚ) × (ℚ × ℚ)) :=
  match markerBounds keyitems with
  | none => none
  | some b =>
    let halfLatSpan := b.latSpan * scaleMult / 2
    let halfLngSpan := b.lngSpan * scaleMult / 2
    some ((centerLat - halfLatSpan, centerLng - halfLngSpan),
          (centerLat + halfLatSpan, centerLng + halfLngSpan))

/-- A visible map region. -/
structure Region where
  latitude : ℚ
  longitude : ℚ
  latitudeDelta : ℚ
  longitudeDelta : ℚ
deriving DecidableEq

/-- `initialRegion` (FloorplanAdjustmentView.tsx lines 152-160). -/
def initialRegion (keyitems : List KeyItem) : Option Region :=
  match markerBounds keyitems with
  | none => none
  | some b => some ⟨b.centerLat, b.centerLng, b.latSpan * 2, b.lngSpan * 2⟩

/-- What the adjustment modal shows: either the terminal no-data screen or
the interactive editor. -/
inductive AdjustScreen
  | noData
  | editor
deriving DecidableEq

/-- The render guard of FloorplanAdjustmentView.tsx line 163:
`markersWithCoords.length === 0 || !initialRegion || !overlayBounds`. -/
def renderAdjustmentView (keyitems : List KeyItem) (s : AdjustState) : AdjustScreen :=
  if (markersWithCoords keyitems).length = 0 ∨ initialRegion keyitems = none ∨
      overlayBounds keyitems s.centerLat s.centerLng s.scale = none then
    AdjustScreen.noData
  else
    AdjustScreen.editor

/-- Whether the rendered screen exposes a Save (commit) control: the no-data
screen renders only the Cancel button (lines 163-191), the editor renders
both Cancel and Save (lines 193-213). -/
def saveAvailable : AdjustScreen → Bool
  | .noData => false
  | .editor => true

/-- `PhotoKey` from src/types/index.ts. -/
structure PhotoKey where
  id : String
  name : String
  dateCreated : String
  lastModified : String
  floors : List (String × Floor)
deriving DecidableEq

/-- The `photoKeys` record of the zustand store (src/unnamed/part_011). -/
abbrev Store := List (String × PhotoKey)

/-- JS property read `obj[k]` on a record modelled as an association list. -/
def getEntry (l : List (String × α)) (k : String) : Option α :=
  match l with
  | [] => none
  | (k', v) :: rest => if k' = k then some v else getEntry rest k

/-- JS spread update `{...obj, [k]: v}`: replaces an existing key in place,
appends a new key at the end. -/
def setEntry (l : List (String × α)) (k : String) (v : α) : List (String × α) :=
  match l with
  | [] => [(k, v)]
  | (k', v') :: rest => if k' = k then (k, v) :: rest else (k', v') :: setEntry rest k v

/-- `ensureFloor` (src/unnamed/part_011 lines 36-44). -/
def ensureFloor (floors : List (String × Floor)) (floorNumber : String) :
    List (String × Floor) :=
  match getEntry floors floorNumber with
  | none => setEntry floors floorNumber ⟨none, []⟩
  | some _ => floors

/-- `updateLastModified` (src/unnamed/part_011 lines 46-51); the wall clock is
passed in explicitly as `now`. -/
def updateLastModified (now : String) (photoKey : PhotoKey) : PhotoKey :=
  { photoKey with lastModified := now }

/-- `removeKeyItem` (src/unnamed/part_011 lines 128-161). -/
def removeKeyItem (now : String) (store : Store)
    (photoKeyId floorNumber itemId : String) : Store :=
  match getEntry store photoKeyId with
  | none => store
  | some photoKey =>
    match getEntry photoKey.floors floorNumber with
    | none => store
    | some floor =>
      let updatedKeyitems := floor.keyitems.filter fun item => item.id != itemId
      let shouldRemoveFloorplan : Bool :=
        floorNumber != unassignedStr && updatedKeyitems.isEmpty && floor.floorplan.isSome
      setEntry store photoKeyId
        (updateLastModified now
          { photoKey with
            floors := setEntry photoKey.floors floorNumber
              { floor with
                keyitems := updatedKeyitems
                floorplan := if shouldRemoveFloorplan then none else floor.floorplan } })

/-- `updateKeyItem` (src/unnamed/part_011 lines 163-189); the partial record
merge `{...item, ...updates}` is modelled by an update function. -/
def updateKeyItem (now : String) (store : Store)
    (photoKeyId floorNumber itemId : String) (updates : KeyItem → KeyItem) : Store :=
  match getEntry store photoKeyId with
  | none => store
  | some photoKey =>
    match getEntry photoKey.floors floorNumber with
    | none => store
    | some floor =>
      setEntry store photoKeyId
        (updateLastModified now
          { photoKey with
            floors := setEntry photoKey.floors floorNumber
              { floor with
                keyitems := floor.keyitems.map fun item =>
                  if item.id = itemId then updates item else item } })

/-- `moveKeyItemToFloor` (src/unnamed/part_011 lines 191-236). -/
def moveKeyItemToFloor (now : String) (store : Store)
    (photoKeyId itemId fromFloor toFloor : String) : Store :=
  match getEntry store photoKeyId with
  | none => store
  | some photoKey =>
    match getEntry photoKey.floors fromFloor with
    | none => store
    | some sourceFloor =>
      match sourceFloor.keyitems.find? (fun i => i.id == itemId) with
      | none => store
      | some item =>
        let floors := ensureFloor photoKey.floors toFloor
        let targetFloor := (getEntry floors toFloor).getD ⟨none, []⟩
        let updatedItem := { item with floorNumber := toFloor }
        let updatedSourceKeyitems := sourceFloor.keyitems.filter fun i => i.id != itemId
        let shouldRemoveSourceFloorplan : Bool :=
          fromFloor != unassignedStr && updatedSourceKeyitems.isEmpty &&
            sourceFloor.floorplan.isSome
        setEntry store photoKeyId
          (updateLastModified now
            { photoKey with
              floors :=
                setEntry
                  (setEntry floors fromFloor
                    { sourceFloor with
                      keyitems := updatedSourceKeyitems
                      floorplan :=
                        if shouldRemoveSourceFloorplan then none else sourceFloor.floorplan })
                  toFloor
                  { targetFloor with keyitems := targetFloor.keyitems ++ [updatedItem] } })

/-- `addKeyItem` (src/unnamed/part_011 lines 102-126). -/
def addKeyItem (now : String) (store : Store)
    (photoKeyId floorNumber : String) (item : KeyItem) : Store :=
  match getEntry store photoKeyId with
  | none => store
  | some photoKey =>
    let floors := ensureFloor photoKey.floors floorNumber
    let floor := (getEntry floors floorNumber).getD ⟨none, []⟩
    setEntry store photoKeyId
      (updateLastModified now
        { photoKey with
          floors := setEntry floors floorNumber
            { floor with keyitems := floor.keyitems ++ [item] } })

/-- `addFloorplan` (src/unnamed/part_011 lines 238-262). -/
def addFloorplan (now : String) (store : Store)
    (photoKeyId floorNumber : String) (floorplan : Floorplan) : Store :=
  match getEntry store photoKeyId with
  | none => store
  | some photoKey =>
    let floors := ensureFloor photoKey.floors floorNumber
    let floor := (getEntry floors floorNumber).getD ⟨none, []⟩
    setEntry store photoKeyId
      (updateLastModified now
        { photoKey with
          floors := setEntry floors floorNumber
            { floor with floorplan := some floorplan } })

/-- `updateFloorplan` (src/unnamed/part_011 lines 264-288); the partial merge
`{...floor.floorplan, ...updates}` is modelled by an update function. -/
def updateFloorplan (now : String) (store : Store)
    (photoKeyId floorNumber : String) (updates : Floorplan → Floorplan) : Store :=
  match getEntry store photoKeyId with
  | none => store
  | some photoKey =>
    match getEntry photoKey.floors floorNumber with
    | none => store
    | some floor =>
      match floor.floorplan with
      | none => store
      | some fp =>
        setEntry store photoKeyId
          (updateLastModified now
            { photoKey with
              floors := setEntry photoKey.floors floorNumber
                { floor with floorplan := some (updates fp) } })

/-- `removeFloorplan` (src/unnamed/part_011 lines 290-314). -/
def removeFloorplan (now : String) (store : Store)
    (photoKeyId floorNumber : String) : Store :=
  match getEntry store photoKeyId with
  | none => store
  | some photoKey =>
    match getEntry photoKey.floors floorNumber with
    | none => store
    | some floor =>
      setEntry store photoKeyId
        (updateLastModified now
          { photoKey with
            floors := setEntry photoKey.floors floorNumber
              { floor with floorplan := none } })

/-- The adjustment session held by the key view screen
(`adjustingFloorplan` in src/unnamed/part_009). -/
structure AdjustingSession where
  floorNumber : String
  floorplan : Floorplan
  keyitems : List KeyItem
deriving DecidableEq

/-- The slice of the key view screen state relevant to alignment commits. -/
structure KeyViewState where
  store : Store
  photoKeyId : String
  adjusting : Option AdjustingSession
deriving DecidableEq

/-- `handleCancelAdjustment` (src/unnamed/part_009): only clears the session,
never touches the store. -/
def handleCancelAdjustment (st : KeyViewState) : KeyViewState :=
  { st with adjusting := none }

/-- `handleSaveAdjustment` (src/unnamed/part_009 lines 429-441): writes the
committed updates through `updateFloorplan` and clears the session. -/
def handleSaveAdjustment (now : String) (st : KeyViewState) (upd : FrameUpdates) :
    KeyViewState :=
  match st.adjusting with
  | none => st
  | some sess =>
    { st with
      store := updateFloorplan now st.store st.photoKeyId sess.floorNumber fun fp =>
        { fp with
          centerCoordinates := some upd.centerCoordinates
          rotation := upd.rotation
          scale := upd.scale }
      adjusting := none }

/-- A frame with invalid (negative) scale, as in E2E scenario 3. -/
def frameInvalid : Floorplan :=
  { id := "fp3"
    imageUri := "img3"
    centerCoordinates := some ⟨40, -74⟩
    rotation := 0
    scale := -1
    floorNumber := "1" }

/-- A unit frame centered at the origin: valid scale, no secondary span. -/
def frameUnit : Floorplan :=
  { id := "fp0"
    imageUri := "img0"
    centerCoordinates := some ⟨0, 0⟩
    rotation := 0
    scale := 1
    floorNumber := "1" }

/-- Floor identifier fixtures for the E2E scenarios. -/
def floor1Str : String := "1"

def floor2Str : String := "2"

def floor9Str : String := "9"

/-- Item identifier fixtures. -/
def idA : String := "a"

def idB : String := "b"

def idC : String := "c"

def idD : String := "d"

def idE : String := "e"

def idF : String := "f"

def idU : String := "u"

def idZ : String := "zz"

/-- A minimal key item on a given floor with no GPS data. -/
def mkItem (theId floorNum : String) : KeyItem :=
  { id := theId
    photoUri := "photo"
    coordinates := none
    direction := none
    floorNumber := floorNum
    name := "item"
    notes := "" }

/-- The floor structure of E2E scenario 4: floors `["2", "1", "unassigned"]`
in stored order, two items each. -/
def floorsE2E4 : FloorEntries :=
  [(floor2Str, ⟨none, [mkItem idA floor2Str, mkItem idB floor2Str]⟩),
   (floor1Str, ⟨none, [mkItem idC floor1Str, mkItem idD floor1Str]⟩),
   (unassignedStr, ⟨none, [mkItem idE unassignedStr, mkItem idF unassignedStr]⟩)]

/-- A 1001-character capture payload (just above the success threshold). -/
def longPayload : String := String.mk (List.replicate 1001 'x')

/-- A 1000-character capture payload (at the failure threshold). -/
def shortPayload : String := String.mk (List.replicate 1000 'x')

/-- A frame already at the scale-clamp ceiling (`MAX_SCALE = 3.0`). -/
def frameMax : Floorplan :=
  { id := "fpm"
    imageUri := "imgm"
    centerCoordinates := some ⟨40, -74⟩
    rotation := 0
    scale := 3
    floorNumber := "1" }

/-- Accessor: the floorplan stored for a floor of a photo key, `none` when
the photo key or the floor is absent. -/
def floorplanOf (store : Store) (photoKeyId floorNumber : String) : Option Floorplan :=
  match getEntry store photoKeyId with
  | none => none
  | some pk =>
    match getEntry pk.floors floorNumber with
    | none => none
    | some floor => floor.floorplan

/-- Accessor: the key items stored for a floor of a photo key. -/
def keyitemsOf (store : Store) (photoKeyId floorNumber : String) : Option (List KeyItem) :=
  match getEntry store photoKeyId with
  | none => none
  | some pk =>
    match getEntry pk.floors floorNumber with
    | none => none
    | some floor => some floor.keyitems

/-- Accessor: the `lastModified` stamp of a photo key. -/
def lastModifiedOf (store : Store) (photoKeyId : String) : Option String :=
  (getEntry store photoKeyId).map fun pk => pk.lastModified

/-- Photo-key id and timestamp fixtures. -/
def pkIdA : String := "pk"

def t0Str : String := "t0"

def t1Str : String := "t1"

/-- A floorplan attached to the unassigned pseudo-floor. -/
def fpU : Floorplan :=
  { id := "fpu"
    imageUri := "imgu"
    centerCoordinates := some ⟨40, -74⟩
    rotation := 0
    scale := 1
    floorNumber := unassignedStr }

/-- The single key item of the unassigned pseudo-floor fixture. -/
def itemU : KeyItem := mkItem idU unassignedStr

/-- A store whose only photo key has one unassigned item and an unassigned
floorplan. -/
def storeU : Store :=
  [(pkIdA,
    { id := pkIdA
      name := "K"
      dateCreated := t0Str
      lastModified := t0Str
      floors := [(unassignedStr, ⟨some fpU, [itemU]⟩)] })]

/-- A single key item on floor 1. -/
def item1 : KeyItem := mkItem idA floor1Str

/-- A store whose only photo key has floor 1 holding one item and no
floorplan. -/
def store1 : Store :=
  [(pkIdA,
    { id := pkIdA
      name := "K"
      dateCreated := t0Str
      lastModified := t0Str
      floors := [(floor1Str, ⟨none, [item1]⟩)] })]

/-- A floorplan attached to numbered floor 1. -/
def fp1 : Floorplan :=
  { id := "fp1n"
    imageUri := "img1n"
    centerCoordinates := some ⟨40, -74⟩
    rotation := 0
    scale := 1
    floorNumber := floor1Str }

/-- A store whose only photo key has floor 1 empty of items but holding a
floorplan. -/
def storeE : Store :=
  [(pkIdA,
    { id := pkIdA
      name := "K"
      dateCreated := t0Str
      lastModified := t0Str
      floors := [(floor1Str, ⟨some fp1, []⟩)] })]

end ASH

namespace ASH

/-- Helper: the pixel projector on a valid frame always produces the pair
given by the spec formulas, scaled to the canvas. -/
theorem calculatePosition_some (coord : Coordinates) (fp : Floorplan) (c : Coordinates)
    (w h : ℚ) (hc : fp.centerCoordinates = some c) (hs : 0 < fp.scale) :
    calculatePosition coord fp w h =
      some ((50 + (coord.longitude - c.longitude) /
              (if 0 < fp.rotation then fp.rotation else fp.scale) * 100) / 100 * w,
            (50 - (coord.latitude - c.latitude) / fp.scale * 100) / 100 * h) := by
  simp only [calculatePosition, hc]
  rw [if_neg (not_le.mpr hs)]

/-- Claim C1: with a valid frame the projector computes the deltas from the
center, uses `latSpan = scale` and `lngSpan = rotationField` when positive
(else `scale`), and produces `x% = 50 + (deltaLng/lngSpan)*100`,
`y% = 50 - (deltaLat/latSpan)*100`; E2E scenario 1 yields `(50, 0)` and the
frame's own center always projects to `(50, 50)`. -/
theorem C1_forward_projection :
    (∀ (fp : Floorplan) (c coord : Coordinates) (w h : ℚ),
      fp.centerCoordinates = some c → 0 < fp.scale →
      calculatePosition coord fp w h =
        some ((50 + (coord.longitude - c.longitude) /
                (if 0 < fp.rotation then fp.rotation else fp.scale) * 100) / 100 * w,
              (50 - (coord.latitude - c.latitude) / fp.scale * 100) / 100 * h)) ∧
    calculateFloorplanPosition ⟨40.005, -74⟩ frameE2E1 = some (50, 0) ∧
    (∀ (fp : Floorplan) (c : Coordinates),
      fp.centerCoordinates = some c → 0 < fp.scale →
      calculateFloorplanPosition c fp = some (50, 50)) := by
  refine ⟨fun fp c coord w h hc hs => calculatePosition_some coord fp c w h hc hs, ?_, ?_⟩
  · norm_num [calculateFloorplanPosition, frameE2E1]
  · intro fp c hc hs
    simp only [calculateFloorplanPosition, hc]
    rw [if_neg (not_le.mpr hs)]
    norm_num

/-- Witness for C1 at a concrete frame and coordinate. -/
theorem C1_forward_projection_witness :
    calculatePosition ⟨1, 2⟩ frameE2E1 200 100 =
      some ((50 + ((2 : ℚ) - -74) /
              (if 0 < frameE2E1.rotation then frameE2E1.rotation else frameE2E1.scale) * 100)
              / 100 * 200,
            (50 - ((1 : ℚ) - 40) / frameE2E1.scale * 100) / 100 * 100) :=
  C1_forward_projection.1 frameE2E1 ⟨40, -74⟩ ⟨1, 2⟩ 200 100 rfl (by norm_num [frameE2E1])

/-- Claim C2: a frame with `scale ≤ 0` makes both projectors return no
position for every coordinate (the functions are total, so no exception is
possible). -/
theorem C2_invalid_scale (fp : Floorplan) (coord : Coordinates) (w h : ℚ)
    (hs : fp.scale ≤ 0) :
    calculateFloorplanPosition coord fp = none ∧ calculatePosition coord fp w h = none := by
  cases hc : fp.centerCoordinates with
  | none => simp [calculateFloorplanPosition, calculatePosition, hc]
  | some c => simp [calculateFloorplanPosition, calculatePosition, hc, hs]

/-- Witness for C2: scenario 3's `scale = -1` frame, probed at its own
center. -/
theorem C2_invalid_scale_witness :
    calculateFloorplanPosition ⟨40, -74⟩ frameInvalid = none ∧
    calculatePosition ⟨40, -74⟩ frameInvalid 100 100 = none :=
  C2_invalid_scale frameInvalid ⟨40, -74⟩ 100 100 (by norm_num [frameInvalid])

/-- Counterexample to C3: `frameUnit` has positive scale, and at `(0, 2)` the
spec formula computes `x = 250`, yet the report projector
`calculateFloorplanPosition` returns no position (its `[-20, 120]` range
check rejects it) instead of the computed pair. -/
theorem C3_counterexample :
    0 < frameUnit.scale ∧
    (50 + ((2 : ℚ) - 0) / 1 * 100 = 250 ∧ (120 : ℚ) < 250) ∧
    calculateFloorplanPosition ⟨0, 2⟩ frameUnit = none := by
  refine ⟨by norm_num [frameUnit], ⟨by norm_num, by norm_num⟩, ?_⟩
  norm_num [calculateFloorplanPosition, frameUnit]

/-- Claim C3 (amended): the capture-path pixel projector never clamps or
rejects by range — with a valid frame it returns the computed pair for every
coordinate, and returns no position exactly for a missing center or invalid
scale; the HTML-report percentage projector, however, itself suppresses
positions outside `[-20, 120]` in either axis and returns the unclamped
computed pair inside that range. -/
theorem C3_no_range_rejection :
    (∀ (fp : Floorplan) (c coord : Coordinates) (w h : ℚ),
      fp.centerCoordinates = some c → 0 < fp.scale →
      ∃ p, calculatePosition coord fp w h = some p) ∧
    (∀ (fp : Floorplan) (coord : Coordinates) (w h : ℚ),
      calculatePosition coord fp w h = none ↔
        fp.centerCoordinates = none ∨ fp.scale ≤ 0) ∧
    (∀ (fp : Floorplan) (c coord : Coordinates),
      fp.centerCoordinates = some c → 0 < fp.scale →
      calculateFloorplanPosition coord fp =
        (let x := 50 + (coord.longitude - c.longitude) /
            (if 0 < fp.rotation then fp.rotation else fp.scale) * 100
         let y := 50 - (coord.latitude - c.latitude) / fp.scale * 100
         if -20 ≤ x ∧ x ≤ 120 ∧ -20 ≤ y ∧ y ≤ 120 then some (x, y) else none)) := by
  refine ⟨?_, ?_, ?_⟩
  · intro fp c coord w h hc hs
    exact ⟨_, calculatePosition_some coord fp c w h hc hs⟩
  · intro fp coord w h
    cases hc : fp.centerCoordinates with
    | none => simp [calculatePosition, hc]
    | some c =>
      by_cases hs : fp.scale ≤ 0
      · simp [calculatePosition, hc, hs]
      · rw [calculatePosition_some coord fp c w h hc (not_le.mp hs)]
        simp [hc, hs]
  · intro fp c coord hc hs
    simp only [calculateFloorplanPosition, hc]
    rw [if_neg (not_le.mpr hs)]

/-- Witness for C3 at the same input as the counterexample: the pixel
projector does return a pair at the coordinate the report projector
rejects. -/
theorem C3_no_range_rejection_witness :
    ∃ p, calculatePosition ⟨0, 2⟩ frameUnit 100 100 = some p :=
  C3_no_range_rejection.1 frameUnit ⟨0, 0⟩ ⟨0, 2⟩ 100 100 rfl (by norm_num [frameUnit])

/-- Helper: inserting with a comparator is a permutation. -/
theorem insertByCompare_perm (cmp : α → α → Int) (x : α) :
    ∀ l : List α, List.Perm (insertByCompare cmp x l) (x :: l)
  | [] => List.Perm.refl _
  | y :: ys => by
    unfold insertByCompare
    by_cases h : cmp x y ≤ 0
    · rw [if_pos h]
    · rw [if_neg h]
      exact (List.Perm.cons y (insertByCompare_perm cmp x ys)).trans (List.Perm.swap x y ys)

/-- Helper: comparator sorting is a permutation. -/
theorem sortByCompare_perm (cmp : α → α → Int) :
    ∀ l : List α, List.Perm (sortByCompare cmp l) l
  | [] => List.Perm.refl _
  | x :: xs => by
    unfold sortByCompare
    exact (insertByCompare_perm cmp x (sortByCompare cmp xs)).trans
      (List.Perm.cons x (sortByCompare_perm cmp xs))

/-- Claim C4: the report numbering sorts numeric floors ascending with
`"unassigned"` last, keeps insertion order per floor, assigns 1-based global
numbers in that order (E2E scenario 4 gets `c,d ↦ 1,2`, `a,b ↦ 3,4`,
`e,f ↦ 5,6`), is deterministic under repetition, and the sort only permutes
the stored floor entries. -/
theorem C4_global_numbering :
    (globalNumber floorsE2E4 idC = some 1 ∧ globalNumber floorsE2E4 idD = some 2 ∧
     globalNumber floorsE2E4 idA = some 3 ∧ globalNumber floorsE2E4 idB = some 4 ∧
     globalNumber floorsE2E4 idE = some 5 ∧ globalNumber floorsE2E4 idF = some 6) ∧
    (∀ fs : FloorEntries, itemIndexMap fs = itemIndexMap fs) ∧
    (∀ fs : FloorEntries, List.Perm (sortFloorEntries fs) fs) ∧
    (∀ (a b : String) (x y : Int), a ≠ unassignedStr → b ≠ unassignedStr →
      parseIntJS a = some x → parseIntJS b = some y → x < y →
      floorCompare a b < 0 ∧ 0 < floorCompare b a) ∧
    (∀ a : String, a ≠ unassignedStr →
      floorCompare a unassignedStr = -1 ∧ floorCompare unassignedStr a = 1) := by
  refine ⟨by decide, fun fs => rfl, fun fs => sortByCompare_perm _ fs, ?_, ?_⟩
  · intro a b x y ha hb hx hy hlt
    simp only [floorCompare, if_neg ha, if_neg hb, hx, hy]
    exact ⟨by omega, by omega⟩
  · intro a ha
    simp [floorCompare, ha]

/-- Witness for C4: floor `"1"` sorts strictly before floor `"2"`, and both
sort before `"unassigned"`. -/
theorem C4_global_numbering_witness :
    (floorCompare floor1Str floor2Str < 0 ∧ 0 < floorCompare floor2Str floor1Str) ∧
    (floorCompare floor1Str unassignedStr = -1 ∧ floorCompare unassignedStr floor1Str = 1) :=
  ⟨C4_global_numbering.2.2.2.1 floor1Str floor2Str 1 2 (by decide) (by decide)
      (by decide) (by decide) (by decide),
   C4_global_numbering.2.2.2.2 floor1Str (by decide)⟩

/-- Helper: exact characterization of the serializations a capture unit
schedules over an arbitrary arrival order of readiness callbacks. -/
theorem capRun_requests (tr : List CaptureEvent) :
    ∀ s : CaptureFlags,
      (capRun s tr).2 =
        if (s.mapReady = true ∨ CaptureEvent.mapReady ∈ tr) ∧
           (s.imageLoaded = true ∨ CaptureEvent.imageLoad ∈ tr) ∧
           ¬(s.mapReady = true ∧ s.imageLoaded = true)
        then [⟨SETTLE_MS⟩] else [] := by
  induction tr with
  | nil => intro s; simp [capRun]; tauto
  | cons e es ih =>
    intro s
    rcases s with ⟨mr, il⟩
    cases e <;> cases mr <;> cases il <;>
      simp [capRun, capStep, applyEvent, ih ⟨_, _⟩]

/-- Claim C5: a capture unit never schedules serialization unless both
readiness flags are true; starting from both flags unset, a serialization is
scheduled exactly when both callbacks have arrived, at most once, the two
arrival orders produce identical output, and every serialization carries the
500 ms settle delay. -/
theorem C5_capture_join :
    (∀ (s : CaptureFlags) (e : CaptureEvent) (r : CaptureRequest),
      (capStep s e).2 = some r →
      ((capStep s e).1.mapReady = true ∧ (capStep s e).1.imageLoaded = true) ∧
      r.settleMs = SETTLE_MS) ∧
    (∀ tr : List CaptureEvent,
      (capRun initialFlags tr).2 ≠ [] ↔
        CaptureEvent.mapReady ∈ tr ∧ CaptureEvent.imageLoad ∈ tr) ∧
    (∀ tr : List CaptureEvent,
      (capRun initialFlags tr).2 = [] ∨ (capRun initialFlags tr).2 = [⟨SETTLE_MS⟩]) ∧
    capRun initialFlags [CaptureEvent.mapReady, CaptureEvent.imageLoad] =
      capRun initialFlags [CaptureEvent.imageLoad, CaptureEvent.mapReady] ∧
    capRun initialFlags [CaptureEvent.mapReady, CaptureEvent.imageLoad] =
      (⟨true, true⟩, [⟨SETTLE_MS⟩]) := by
  refine ⟨?_, ?_, ?_, by decide, by decide⟩
  · intro s e r hr
    rcases s with ⟨mr, il⟩
    cases e <;> cases mr <;> cases il <;>
      simp [capStep, applyEvent] at hr ⊢ <;> simp [← hr]
  · intro tr
    rw [capRun_requests tr initialFlags]
    by_cases h : CaptureEvent.mapReady ∈ tr ∧ CaptureEvent.imageLoad ∈ tr <;>
      simp [initialFlags, h]
  · intro tr
    rw [capRun_requests tr initialFlags]
    by_cases h : CaptureEvent.mapReady ∈ tr ∧ CaptureEvent.imageLoad ∈ tr <;>
      simp [initialFlags, h]

/-- Witness for C5: delivering the image-load callback with the map already
ready schedules exactly one serialization with the 500 ms settle delay. -/
theorem C5_capture_join_witness :
    ((capStep ⟨true, false⟩ CaptureEvent.imageLoad).1.mapReady = true ∧
     (capStep ⟨true, false⟩ CaptureEvent.imageLoad).1.imageLoaded = true) ∧
    (⟨SETTLE_MS⟩ : CaptureRequest).settleMs = SETTLE_MS :=
  C5_capture_join.1 ⟨true, false⟩ CaptureEvent.imageLoad ⟨SETTLE_MS⟩ (by decide)

/-- Claim C6: the capture reports success (a non-empty data URI handed to the
caller) exactly when `captureRef` produced an encoded payload longer than
1000 characters; a shorter payload or a thrown error is reported as the
empty string, and a successful payload is embedded verbatim behind the PNG
data-URI head. -/
theorem C6_capture_validation (r : CaptureOutcome) :
    (handleCaptureResult r ≠ "" ↔ ∃ b, r = CaptureOutcome.ok b ∧ 1000 < b.length) ∧
    (∀ b, r = CaptureOutcome.ok b → 1000 < b.length →
      handleCaptureResult r = dataUriHead ++ b) := by
  cases r with
  | err =>
    constructor
    · simp [handleCaptureResult]
    · intro b hb
      exact absurd hb (by simp)
  | ok b =>
    by_cases h : 1000 < b.length
    · have hb : b ≠ "" := by
        intro he
        rw [he] at h
        exact absurd h (by decide)
      have hne : dataUriHead ++ b ≠ "" := by
        intro he
        have hlen := congrArg String.length he
        rw [String.length_append] at hlen
        have hd : dataUriHead.length = 22 := by decide
        have h0 : ("" : String).length = 0 := by decide
        omega
      refine ⟨⟨fun _ => ⟨b, rfl, h⟩, fun _ => ?_⟩, fun b2 hb2 hlen2 => ?_⟩
      · simpa only [handleCaptureResult, if_pos (And.intro hb h)] using hne
      · obtain rfl : b = b2 := by injection hb2
        simp only [handleCaptureResult, if_pos (And.intro hb h)]
    · have hcond : ¬(b ≠ "" ∧ 1000 < b.length) := by
        rintro ⟨h1, h2⟩
        exact h h2
      refine ⟨⟨fun hne => ?_, ?_⟩, fun b2 hb2 hlen2 => ?_⟩
      · exact absurd (by simp only [handleCaptureResult, if_neg hcond]) hne
      · rintro ⟨b2, hb2, hlen2⟩
        obtain rfl : b = b2 := by injection hb2
        exact absurd hlen2 h
      · obtain rfl : b = b2 := by injection hb2
        exact absurd hlen2 h

/-- Witness for C6: a 1001-character payload is reported as a success and a
1000-character one as a failure. -/
theorem C6_capture_validation_witness :
    handleCaptureResult (CaptureOutcome.ok longPayload) = dataUriHead ++ longPayload ∧
    handleCaptureResult (CaptureOutcome.ok shortPayload) = "" := by
  constructor
  · exact (C6_capture_validation (CaptureOutcome.ok longPayload)).2 longPayload rfl
      (by decide)
  · by_contra hne
    obtain ⟨b, hb, hlen⟩ :=
      (C6_capture_validation (CaptureOutcome.ok shortPayload)).1.mp hne
    obtain rfl : shortPayload = b := by injection hb
    exact absurd hlen (by decide)

/-- Helper: on a nonnegative dividend the JS remainder by 360 subtracts the
unique multiple of 360 that lands in `[0, 360)`. -/
theorem jsMod_360_eq (a : ℚ) (k : ℤ) (h0 : 0 ≤ a) (h1 : (k : ℚ) * 360 ≤ a)
    (h2 : a < ((k : ℚ) + 1) * 360) : jsMod a 360 = a - 360 * k := by
  have h360 : (0 : ℚ) < 360 := by norm_num
  have hfloor : ⌊a / 360⌋ = k := by
    rw [Int.floor_eq_iff]
    constructor
    · rw [le_div_iff₀ h360]
      exact h1
    · rw [div_lt_iff₀ h360]
      linarith
  unfold jsMod jsTrunc
  rw [if_pos (div_nonneg h0 (le_of_lt h360)), hfloor]

/-- Helper: a clockwise rotation step keeps the angle in `[0, 360)`. -/
theorem rotCW_val_range (r : ℚ) (h0 : 0 ≤ r) (h1 : r < 360) :
    0 ≤ jsMod (r + 5) 360 ∧ jsMod (r + 5) 360 < 360 := by
  rcases lt_or_le r 355 with h | h
  · rw [jsMod_360_eq (r + 5) 0 (by linarith) (by push_cast; linarith) (by push_cast; linarith)]
    push_cast
    constructor <;> linarith
  · rw [jsMod_360_eq (r + 5) 1 (by linarith) (by push_cast; linarith) (by push_cast; linarith)]
    push_cast
    constructor <;> linarith

/-- Helper: a counter-clockwise step undoes a clockwise step on `[0, 360)`. -/
theorem rotCW_CCW_val_cancel (r : ℚ) (h0 : 0 ≤ r) (h1 : r < 360) :
    jsMod (jsMod (r + 5) 360 - 5 + 360) 360 = r := by
  rcases lt_or_le r 355 with h | h
  · rw [jsMod_360_eq (r + 5) 0 (by linarith) (by push_cast; linarith) (by push_cast; linarith)]
    have harg : r + 5 - 360 * ((0 : ℤ) : ℚ) - 5 + 360 = r + 360 := by push_cast; ring
    rw [harg,
      jsMod_360_eq (r + 360) 1 (by linarith) (by push_cast; linarith) (by push_cast; linarith)]
    push_cast
    ring
  · rw [jsMod_360_eq (r + 5) 1 (by linarith) (by push_cast; linarith) (by push_cast; linarith)]
    have harg : r + 5 - 360 * ((1 : ℤ) : ℚ) - 5 + 360 = r := by push_cast; ring
    rw [harg,
      jsMod_360_eq r 0 h0 (by push_cast; linarith) (by push_cast; linarith)]
    push_cast
    ring

/-- Helper: one counter-clockwise step undoes one clockwise step on a state
whose rotation lies in `[0, 360)`. -/
theorem rotState_cancel (s : AdjustState) (h0 : 0 ≤ s.rotation) (h1 : s.rotation < 360) :
    rotateCounterClockwise (rotateClockwise s) = s := by
  cases s with
  | mk lat lng rot sc =>
    show AdjustState.mk lat lng (jsMod (jsMod (rot + ROTATION_STEP) 360 - ROTATION_STEP + 360) 360) sc =
      AdjustState.mk lat lng rot sc
    rw [show ROTATION_STEP = (5 : ℚ) from rfl]
    rw [rotCW_CCW_val_cancel rot h0 h1]

/-- Helper: the clockwise step preserves the `[0, 360)` rotation range. -/
theorem rotState_range (s : AdjustState) (h0 : 0 ≤ s.rotation) (h1 : s.rotation < 360) :
    0 ≤ (rotateClockwise s).rotation ∧ (rotateClockwise s).rotation < 360 := by
  have := rotCW_val_range s.rotation h0 h1
  exact this

/-- Helper: `n` counter-clockwise steps undo `n` clockwise steps on
`[0, 360)`. -/
theorem rotate_iter_cancel (n : ℕ) :
    ∀ s : AdjustState, 0 ≤ s.rotation → s.rotation < 360 →
      rotateCounterClockwise^[n] (rotateClockwise^[n] s) = s := by
  induction n with
  | zero => intro s _ _; rfl
  | succ n ih =>
    intro s h0 h1
    rw [Function.iterate_succ_apply rotateClockwise,
      Function.iterate_succ_apply' rotateCounterClockwise]
    have hr := rotState_range s h0 h1
    rw [ih (rotateClockwise s) hr.1 hr.2]
    exact rotState_cancel s h0 h1

/-- Helper: one down-step undoes one up-step of the center latitude. -/
theorem moveState_lat_cancel (s : AdjustState) : moveDown (moveUp s) = s := by
  cases s with
  | mk lat lng rot sc =>
    show AdjustState.mk (lat + COORD_STEP - COORD_STEP) lng rot sc = AdjustState.mk lat lng rot sc
    ring_nf

/-- Helper: one left-step undoes one right-step of the center longitude. -/
theorem moveState_lng_cancel (s : AdjustState) : moveLeft (moveRight s) = s := by
  cases s with
  | mk lat lng rot sc =>
    show AdjustState.mk lat (lng + COORD_STEP - COORD_STEP) rot sc = AdjustState.mk lat lng rot sc
    ring_nf

/-- Helper: `n` down-steps undo `n` up-steps. -/
theorem move_lat_iter_cancel (n : ℕ) : ∀ s : AdjustState, moveDown^[n] (moveUp^[n] s) = s := by
  induction n with
  | zero => intro s; rfl
  | succ n ih =>
    intro s
    rw [Function.iterate_succ_apply moveUp, Function.iterate_succ_apply' moveDown,
      ih (moveUp s)]
    exact moveState_lat_cancel s

/-- Helper: `n` left-steps undo `n` right-steps. -/
theorem move_lng_iter_cancel (n : ℕ) : ∀ s : AdjustState, moveLeft^[n] (moveRight^[n] s) = s := by
  induction n with
  | zero => intro s; rfl
  | succ n ih =>
    intro s
    rw [Function.iterate_succ_apply moveRight, Function.iterate_succ_apply' moveLeft,
      ih (moveRight s)]
    exact moveState_lng_cancel s

/-- Helper: an unclamped up-step adds exactly one scale increment. -/
theorem sizeUp_noclamp (s : AdjustState) (h : s.scale + SCALE_STEP ≤ MAX_SCALE) :
    sizeUp s = { s with scale := s.scale + SCALE_STEP } := by
  cases s with
  | mk lat lng rot sc =>
    show AdjustState.mk lat lng rot (min (sc + SCALE_STEP) MAX_SCALE) =
      AdjustState.mk lat lng rot (sc + SCALE_STEP)
    rw [min_eq_left h]

/-- Helper: an unclamped down-step subtracts exactly one scale increment. -/
theorem sizeDown_noclamp (s : AdjustState) (h : MIN_SCALE ≤ s.scale - SCALE_STEP) :
    sizeDown s = { s with scale := s.scale - SCALE_STEP } := by
  cases s with
  | mk lat lng rot sc =>
    show AdjustState.mk lat lng rot (max (sc - SCALE_STEP) MIN_SCALE) =
      AdjustState.mk lat lng rot (sc - SCALE_STEP)
    rw [max_eq_left h]

/-- Helper: `n` unclamped up-steps add `n` scale increments. -/
theorem sizeUp_iter (n : ℕ) :
    ∀ s : AdjustState, s.scale + n * SCALE_STEP ≤ MAX_SCALE →
      sizeUp^[n] s = { s with scale := s.scale + n * SCALE_STEP } := by
  induction n with
  | zero =>
    intro s _
    show s = { s with scale := s.scale + (0 : ℕ) * SCALE_STEP }
    push_cast
    ring_nf
  | succ n ih =>
    intro s h
    have hstep : (0 : ℚ) < SCALE_STEP := by norm_num [SCALE_STEP]
    have hn : s.scale + n * SCALE_STEP ≤ MAX_SCALE := by
      push_cast at h
      nlinarith
    rw [Function.iterate_succ_apply' sizeUp, ih s hn]
    rw [sizeUp_noclamp { s with scale := s.scale + n * SCALE_STEP }
      (by push_cast at h ⊢; linarith)]
    push_cast
    ring_nf

/-- Helper: `n` unclamped down-steps subtract `n` scale increments. -/
theorem sizeDown_iter (n : ℕ) :
    ∀ s : AdjustState, MIN_SCALE ≤ s.scale - n * SCALE_STEP →
      sizeDown^[n] s = { s with scale := s.scale - n * SCALE_STEP } := by
  induction n with
  | zero =>
    intro s _
    show s = { s with scale := s.scale - (0 : ℕ) * SCALE_STEP }
    push_cast
    ring_nf
  | succ n ih =>
    intro s h
    have hstep : (0 : ℚ) < SCALE_STEP := by norm_num [SCALE_STEP]
    have hn : MIN_SCALE ≤ s.scale - n * SCALE_STEP := by
      push_cast at h
      nlinarith
    rw [Function.iterate_succ_apply' sizeDown, ih s hn]
    rw [sizeDown_noclamp { s with scale := s.scale - n * SCALE_STEP }
      (by push_cast at h ⊢; linarith)]
    push_cast
    ring_nf

/-- Helper: `n` down-steps undo `n` up-steps when the up-steps stay below the
clamp ceiling and the start scale is at or above the floor. -/
theorem size_iter_cancel (n : ℕ) (s : AdjustState) (h2 : MIN_SCALE ≤ s.scale)
    (h3 : s.scale + n * SCALE_STEP ≤ MAX_SCALE) :
    sizeDown^[n] (sizeUp^[n] s) = s := by
  rw [sizeUp_iter n s h3]
  rw [sizeDown_iter n { s with scale := s.scale + n * SCALE_STEP } (by simpa using h2)]
  congr 1
  ring

/-- Counterexample to C7: seeding Mode A from a frame whose scale already sits
at the clamp ceiling, one resize-up step (clamped) followed by one
resize-down step does not reproduce the state, and the committed scale is
2.9 instead of the original 3. -/
theorem C7_counterexample :
    sizeDown (sizeUp (seedAdjustState ⟨40, -74⟩ frameMax)) ≠
      seedAdjustState ⟨40, -74⟩ frameMax ∧
    (handleSave (sizeDown (sizeUp (seedAdjustState ⟨40, -74⟩ frameMax)))).scale = 29 / 10 ∧
    frameMax.scale = 3 := by
  have h1 : sizeUp (seedAdjustState ⟨40, -74⟩ frameMax) = seedAdjustState ⟨40, -74⟩ frameMax := by
    show AdjustState.mk 40 (-74) 0 (min (3 + SCALE_STEP) MAX_SCALE) = AdjustState.mk 40 (-74) 0 3
    norm_num [SCALE_STEP, MAX_SCALE, min_def]
  have h2 : sizeDown (seedAdjustState ⟨40, -74⟩ frameMax) = AdjustState.mk 40 (-74) 0 (29 / 10) := by
    show AdjustState.mk 40 (-74) 0 (max (3 - SCALE_STEP) MIN_SCALE) = AdjustState.mk 40 (-74) 0 (29 / 10)
    norm_num [SCALE_STEP, MIN_SCALE, max_def]
  refine ⟨?_, ?_, rfl⟩
  · rw [h1, h2]
    simp only [seedAdjustState, frameMax, AdjustState.mk.injEq]
    norm_num
  · rw [h1, h2]
    rfl

/-- Claim C7 (amended): committing Mode A after `n` clockwise and `n`
counter-clockwise rotation steps, `n` up and `n` down move steps, `n` right
and `n` left move steps, and `n` resize-up followed by `n` resize-down steps
reproduces the original frame fields exactly, provided the seeded rotation
lies in `[0, 360)` and the resize steps never hit the `[0.2, 3.0]` clamp
(start scale at least `MIN_SCALE` and at most `MAX_SCALE` minus the
accumulated increments); at the clamp boundary a positive-negative resize
pair loses one increment. -/
theorem C7_commit_roundtrip (fp : Floorplan) (c : Coordinates) (n : ℕ)
    (h0 : 0 ≤ fp.rotation) (h1 : fp.rotation < 360)
    (h2 : MIN_SCALE ≤ fp.scale) (h3 : fp.scale + n * SCALE_STEP ≤ MAX_SCALE) :
    handleSave
      (sizeDown^[n] (sizeUp^[n] (moveLeft^[n] (moveRight^[n] (moveDown^[n] (moveUp^[n]
        (rotateCounterClockwise^[n] (rotateClockwise^[n] (seedAdjustState c fp))))))))) =
      ⟨c, fp.rotation, fp.scale⟩ := by
  rw [rotate_iter_cancel n (seedAdjustState c fp) h0 h1]
  rw [move_lat_iter_cancel n (seedAdjustState c fp)]
  rw [move_lng_iter_cancel n (seedAdjustState c fp)]
  rw [size_iter_cancel n (seedAdjustState c fp) h2 h3]
  rfl

/-- Witness for C7 at the unit frame with two steps of every kind. -/
theorem C7_commit_roundtrip_witness :
    handleSave
      (sizeDown^[2] (sizeUp^[2] (moveLeft^[2] (moveRight^[2] (moveDown^[2] (moveUp^[2]
        (rotateCounterClockwise^[2] (rotateClockwise^[2] (seedAdjustState ⟨0, 0⟩ frameUnit))))))))) =
      ⟨⟨0, 0⟩, frameUnit.rotation, frameUnit.scale⟩ :=
  C7_commit_roundtrip frameUnit ⟨0, 0⟩ 2 (by norm_num [frameUnit]) (by norm_num [frameUnit])
    (by norm_num [frameUnit, MIN_SCALE]) (by norm_num [frameUnit, SCALE_STEP, MAX_SCALE])

/-- Helper: when no item carries GPS coordinates the marker list is empty. -/
theorem markersWithCoords_eq_nil (keyitems : List KeyItem)
    (h : ∀ it ∈ keyitems, it.coordinates = none) : markersWithCoords keyitems = [] := by
  unfold markersWithCoords
  rw [List.filter_eq_nil_iff]
  intro p hp
  have hmem : p.2 ∈ keyitems := by
    have := List.mem_map_of_mem Prod.snd hp
    rwa [List.enum_map_snd] at this
  rw [h p.2 hmem]
  simp

/-- Claim C8: with zero geotagged items the adjustment engine renders the
terminal no-data screen, which exposes no Save/commit control, and
cancelling the adjustment never touches the store (the committed frame is
left unchanged). -/
theorem C8_no_geotag_terminal :
    (∀ (keyitems : List KeyItem) (s : AdjustState),
      (∀ it ∈ keyitems, it.coordinates = none) →
      renderAdjustmentView keyitems s = AdjustScreen.noData ∧
      saveAvailable (renderAdjustmentView keyitems s) = false) ∧
    (∀ st : KeyViewState, (handleCancelAdjustment st).store = st.store) := by
  constructor
  · intro keyitems s h
    have hm := markersWithCoords_eq_nil keyitems h
    have hscreen : renderAdjustmentView keyitems s = AdjustScreen.noData := by
      unfold renderAdjustmentView
      rw [if_pos]
      left
      rw [hm]
      rfl
    exact ⟨hscreen, by rw [hscreen]; rfl⟩
  · intro st
    rfl

/-- Witness for C8: one GPS-less item yields the no-data screen without a
Save control. -/
theorem C8_no_geotag_terminal_witness :
    renderAdjustmentView [mkItem idA floor1Str] ⟨0, 0, 0, 1⟩ = AdjustScreen.noData ∧
    saveAvailable (renderAdjustmentView [mkItem idA floor1Str] ⟨0, 0, 0, 1⟩) = false :=
  C8_no_geotag_terminal.1 [mkItem idA floor1Str] ⟨0, 0, 0, 1⟩ (by decide)

/-- Helper: reading back the key just written. -/
theorem getEntry_setEntry_self (l : List (String × α)) (k : String) (v : α) :
    getEntry (setEntry l k v) k = some v := by
  induction l with
  | nil => simp [setEntry, getEntry]
  | cons p rest ih =>
    obtain ⟨k', v'⟩ := p
    by_cases h : k' = k
    · simp [setEntry, getEntry, h]
    · simp [setEntry, getEntry, h, ih]

/-- Helper: writing one key leaves every other key unchanged. -/
theorem getEntry_setEntry_ne (l : List (String × α)) (k q : String) (v : α) (h : q ≠ k) :
    getEntry (setEntry l k v) q = getEntry l q := by
  induction l with
  | nil => simp [setEntry, getEntry, Ne.symm h]
  | cons p rest ih =>
    obtain ⟨k', v'⟩ := p
    by_cases hk : k' = k
    · subst hk
      simp [setEntry, getEntry, Ne.symm h]
    · simp only [setEntry, if_neg hk, getEntry]
      by_cases hq : k' = q
      · simp [hq]
      · simp [hq, ih]

/-- Helper: rewriting a key with the value it already holds is the
identity. -/
theorem setEntry_self (l : List (String × α)) (k : String) (v : α)
    (h : getEntry l k = some v) : setEntry l k v = l := by
  induction l with
  | nil => simp [getEntry] at h
  | cons p rest ih =>
    obtain ⟨k', v'⟩ := p
    by_cases hk : k' = k
    · subst hk
      have hv : v' = v := by simpa [getEntry] using h
      simp [setEntry, hv]
    · simp only [getEntry, if_neg hk] at h
      simp [setEntry, hk, ih h]

/-- Helper: filtering with an everywhere-true predicate is the identity. -/
theorem filter_eq_self_of (p : α → Bool) :
    ∀ l : List α, (∀ a ∈ l, p a = true) → l.filter p = l
  | [], _ => rfl
  | a :: as, h => by
    have ha := h a (List.mem_cons_self a as)
    have hrest := filter_eq_self_of p as fun b hb => h b (List.mem_cons_of_mem a hb)
    simp [List.filter, ha, hrest]

/-- Helper: mapping with a pointwise-identity function is the identity. -/
theorem map_eq_self_of (f : α → α) :
    ∀ l : List α, (∀ a ∈ l, f a = a) → l.map f = l
  | [], _ => rfl
  | a :: as, h => by
    have ha := h a (List.mem_cons_self a as)
    have hrest := map_eq_self_of f as fun b hb => h b (List.mem_cons_of_mem a hb)
    simp [ha, hrest]

/-- Helper: the shape `removeKeyItem` takes once the photo key and floor are
found. -/
theorem removeKeyItem_eq (now : String) (store : Store)
    (pkId fnum itemId : String) (pk : PhotoKey) (floor : Floor)
    (hpk : getEntry store pkId = some pk) (hfl : getEntry pk.floors fnum = some floor) :
    removeKeyItem now store pkId fnum itemId =
      setEntry store pkId
        (updateLastModified now
          { pk with
            floors := setEntry pk.floors fnum
              { floor with
                keyitems := floor.keyitems.filter fun item => item.id != itemId
                floorplan :=
                  if fnum != unassignedStr &&
                      (floor.keyitems.filter fun item => item.id != itemId).isEmpty &&
                      floor.floorplan.isSome then none
                  else floor.floorplan } }) := by
  simp only [removeKeyItem, hpk, hfl]

/-- Helper: the shape `moveKeyItemToFloor` takes once the photo key, source
floor and item are found. -/
theorem moveKeyItemToFloor_eq (now : String) (store : Store)
    (pkId itemId fromFloor toFloor : String) (pk : PhotoKey) (sourceFloor : Floor)
    (item : KeyItem)
    (hpk : getEntry store pkId = some pk)
    (hfl : getEntry pk.floors fromFloor = some sourceFloor)
    (hfind : sourceFloor.keyitems.find? (fun i => i.id == itemId) = some item) :
    moveKeyItemToFloor now store pkId itemId fromFloor toFloor =
      setEntry store pkId
        (updateLastModified now
          { pk with
            floors :=
              setEntry
                (setEntry (ensureFloor pk.floors toFloor) fromFloor
                  { sourceFloor with
                    keyitems := sourceFloor.keyitems.filter fun i => i.id != itemId
                    floorplan :=
                      if fromFloor != unassignedStr &&
                          (sourceFloor.keyitems.filter fun i => i.id != itemId).isEmpty &&
                          sourceFloor.floorplan.isSome then none
                      else sourceFloor.floorplan })
                toFloor
                { (getEntry (ensureFloor pk.floors toFloor) toFloor).getD ⟨none, []⟩ with
                  keyitems :=
                    ((getEntry (ensureFloor pk.floors toFloor) toFloor).getD ⟨none, []⟩).keyitems ++
                      [{ item with floorNumber := toFloor }] } }) := by
  simp only [moveKeyItemToFloor, hpk, hfl, hfind]

/-- Helper: ensuring a floor makes it readable, defaulting to an empty
floor. -/
theorem getEntry_ensureFloor_self (floors : List (String × Floor)) (f : String) :
    getEntry (ensureFloor floors f) f = some ((getEntry floors f).getD ⟨none, []⟩) := by
  unfold ensureFloor
  cases h : getEntry floors f with
  | none => simp [h, getEntry_setEntry_self]
  | some fl => simp [h]

/-- Helper: ensuring one floor leaves other floors unchanged. -/
theorem getEntry_ensureFloor_ne (floors : List (String × Floor)) (f g : String)
    (h : g ≠ f) : getEntry (ensureFloor floors f) g = getEntry floors g := by
  unfold ensureFloor
  cases hf : getEntry floors f with
  | none => simp [getEntry_setEntry_ne _ _ _ _ h]
  | some fl => rfl

/-- Counterexample to C9: removing the last (only) item of the unassigned
pseudo-floor leaves its floorplan in place instead of setting it to null. -/
theorem C9_counterexample :
    keyitemsOf (removeKeyItem t1Str storeU pkIdA unassignedStr idU) pkIdA unassignedStr =
      some [] ∧
    floorplanOf (removeKeyItem t1Str storeU pkIdA unassignedStr idU) pkIdA unassignedStr =
      some fpU := by
  constructor <;> rfl

/-- Claim C9 (amended): removing (or moving away) the last key item of a
numbered (non-"unassigned") floor automatically sets that floor's floorplan
to null; the floorplan of every other floor, and every other photo key, is
untouched, each frame being owned by exactly one floor. -/
theorem C9_floorplan_lifecycle :
    (∀ (now : String) (store : Store) (pkId fnum itemId : String) (pk : PhotoKey)
        (floor : Floor) (item : KeyItem),
      getEntry store pkId = some pk →
      getEntry pk.floors fnum = some floor →
      fnum ≠ unassignedStr →
      floor.keyitems = [item] → item.id = itemId →
      floorplanOf (removeKeyItem now store pkId fnum itemId) pkId fnum = none ∧
      keyitemsOf (removeKeyItem now store pkId fnum itemId) pkId fnum = some [] ∧
      (∀ g, g ≠ fnum →
        floorplanOf (removeKeyItem now store pkId fnum itemId) pkId g =
          floorplanOf store pkId g) ∧
      (∀ q, q ≠ pkId →
        getEntry (removeKeyItem now store pkId fnum itemId) q = getEntry store q)) ∧
    (∀ (now : String) (store : Store) (pkId fromFloor toFloor itemId : String)
        (pk : PhotoKey) (floor : Floor) (item : KeyItem),
      getEntry store pkId = some pk →
      getEntry pk.floors fromFloor = some floor →
      fromFloor ≠ unassignedStr → toFloor ≠ fromFloor →
      floor.keyitems = [item] → item.id = itemId →
      floorplanOf (moveKeyItemToFloor now store pkId itemId fromFloor toFloor) pkId fromFloor =
        none ∧
      floorplanOf (moveKeyItemToFloor now store pkId itemId fromFloor toFloor) pkId toFloor =
        floorplanOf store pkId toFloor) := by
  constructor
  · intro now store pkId fnum itemId pk floor item hpk hfl hne hitems hid
    have hfilter : (floor.keyitems.filter fun it => it.id != itemId) = [] := by
      rw [hitems]
      simp [List.filter, hid]
    rw [removeKeyItem_eq now store pkId fnum itemId pk floor hpk hfl]
    refine ⟨?_, ?_, ?_, ?_⟩
    · simp only [floorplanOf, updateLastModified, getEntry_setEntry_self]
      rw [hfilter]
      cases hfp : floor.floorplan with
      | none => simp [hfp]
      | some fp => simp [hfp, hne]
    · simp only [keyitemsOf, updateLastModified, getEntry_setEntry_self]
      rw [hfilter]
    · intro g hg
      simp only [floorplanOf, updateLastModified, getEntry_setEntry_self]
      rw [getEntry_setEntry_ne _ _ _ _ hg, hpk]
    · intro q hq
      rw [getEntry_setEntry_ne _ _ _ _ hq]
  · intro now store pkId fromFloor toFloor itemId pk floor item hpk hfl hne hto hitems hid
    have hfind : floor.keyitems.find? (fun i => i.id == itemId) = some item := by
      rw [hitems]
      simp [List.find?, hid]
    have hfilter : (floor.keyitems.filter fun i => i.id != itemId) = [] := by
      rw [hitems]
      simp [List.filter, hid]
    rw [moveKeyItemToFloor_eq now store pkId itemId fromFloor toFloor pk floor item hpk hfl
      hfind]
    constructor
    · simp only [floorplanOf, updateLastModified, getEntry_setEntry_self]
      rw [getEntry_setEntry_ne _ _ _ _ (Ne.symm hto), getEntry_setEntry_self]
      rw [hfilter]
      cases hfp : floor.floorplan with
      | none => simp [hfp]
      | some fp => simp [hfp, hne]
    · simp only [floorplanOf, updateLastModified, getEntry_setEntry_self, hpk]
      rw [getEntry_ensureFloor_self]
      cases h : getEntry pk.floors toFloor with
      | none => simp [h]
      | some f => simp [h]

/-- Witness for C9: removing the only item of numbered floor 1 nulls that
floor's floorplan and empties its item list. -/
theorem C9_floorplan_lifecycle_witness :
    floorplanOf (removeKeyItem t1Str store1 pkIdA floor1Str idA) pkIdA floor1Str = none ∧
    keyitemsOf (removeKeyItem t1Str store1 pkIdA floor1Str idA) pkIdA floor1Str = some [] ∧
    (∀ g, g ≠ floor1Str →
      floorplanOf (removeKeyItem t1Str store1 pkIdA floor1Str idA) pkIdA g =
        floorplanOf store1 pkIdA g) ∧
    (∀ q, q ≠ pkIdA →
      getEntry (removeKeyItem t1Str store1 pkIdA floor1Str idA) q = getEntry store1 q) :=
  C9_floorplan_lifecycle.1 t1Str store1 pkIdA floor1Str idA _ _ item1 rfl rfl
    (by decide) rfl rfl

/-- Counterexample to C10: `removeKeyItem` with an existing floor but a
nonexistent item id does not leave the state unchanged — it bumps
`lastModified` (while the items survive), and on an empty numbered floor it
even nulls the stored floorplan; `addKeyItem` and `addFloorplan` with a
nonexistent floor number create that floor instead of no-op. -/
theorem C10_counterexample :
    removeKeyItem t1Str store1 pkIdA floor1Str idZ ≠ store1 ∧
    lastModifiedOf (removeKeyItem t1Str store1 pkIdA floor1Str idZ) pkIdA = some t1Str ∧
    lastModifiedOf store1 pkIdA = some t0Str ∧
    keyitemsOf (removeKeyItem t1Str store1 pkIdA floor1Str idZ) pkIdA floor1Str =
      some [item1] ∧
    floorplanOf storeE pkIdA floor1Str = some fp1 ∧
    floorplanOf (removeKeyItem t1Str storeE pkIdA floor1Str idZ) pkIdA floor1Str = none ∧
    keyitemsOf store1 pkIdA floor9Str = none ∧
    keyitemsOf (addKeyItem t1Str store1 pkIdA floor9Str item1) pkIdA floor9Str =
      some [item1] ∧
    floorplanOf (addFloorplan t1Str store1 pkIdA floor9Str fp1) pkIdA floor9Str =
      some fp1 := by
  refine ⟨?_, rfl, rfl, rfl, rfl, rfl, rfl, rfl, rfl⟩
  intro h
  have h2 : lastModifiedOf store1 pkIdA = some t1Str := by
    rw [← h]
    rfl
  exact absurd h2 (by decide)

/-- Claim C10 (amended): every store mutation with a nonexistent photo-key id
is a complete no-op, as are removeKeyItem/updateKeyItem/updateFloorplan/
removeFloorplan on a nonexistent floor, moveKeyItemToFloor on a nonexistent
source floor or item id, and updateFloorplan on a floor whose floorplan is
null; no mutation throws (all are total).  removeKeyItem with an existing
nonempty floor and a nonexistent item id leaves all content unchanged but
still bumps lastModified, and on an existing but empty numbered floor it
additionally nulls that floor's floorplan (the auto-removal guard inspects
only the resulting item list); updateKeyItem with an existing floor and a
nonexistent item id leaves all content unchanged with lastModified bumped;
addKeyItem and addFloorplan on a nonexistent floor number create that floor
(holding the appended item, respectively the attached floorplan); and the
unassigned pseudo-floor's floorplan is never auto-removed by item
removal. -/
theorem C10_noop_mutations :
    (∀ (now : String) (store : Store) (pkId f fromF toF i : String) (item : KeyItem)
        (fpln : Floorplan) (updI : KeyItem → KeyItem) (updF : Floorplan → Floorplan),
      getEntry store pkId = none →
      removeKeyItem now store pkId f i = store ∧
      updateKeyItem now store pkId f i updI = store ∧
      moveKeyItemToFloor now store pkId i fromF toF = store ∧
      addKeyItem now store pkId f item = store ∧
      addFloorplan now store pkId f fpln = store ∧
      updateFloorplan now store pkId f updF = store ∧
      removeFloorplan now store pkId f = store) ∧
    (∀ (now : String) (store : Store) (pkId f toF i : String) (pk : PhotoKey)
        (updI : KeyItem → KeyItem) (updF : Floorplan → Floorplan),
      getEntry store pkId = some pk →
      getEntry pk.floors f = none →
      removeKeyItem now store pkId f i = store ∧
      updateKeyItem now store pkId f i updI = store ∧
      moveKeyItemToFloor now store pkId i f toF = store ∧
      updateFloorplan now store pkId f updF = store ∧
      removeFloorplan now store pkId f = store) ∧
    (∀ (now : String) (store : Store) (pkId i fromF toF : String) (pk : PhotoKey)
        (floor : Floor),
      getEntry store pkId = some pk →
      getEntry pk.floors fromF = some floor →
      (∀ it ∈ floor.keyitems, it.id ≠ i) →
      moveKeyItemToFloor now store pkId i fromF toF = store) ∧
    (∀ (now : String) (store : Store) (pkId f : String) (pk : PhotoKey) (floor : Floor)
        (updF : Floorplan → Floorplan),
      getEntry store pkId = some pk →
      getEntry pk.floors f = some floor →
      floor.floorplan = none →
      updateFloorplan now store pkId f updF = store) ∧
    (∀ (now : String) (store : Store) (pkId f i : String) (pk : PhotoKey) (floor : Floor),
      getEntry store pkId = some pk →
      getEntry pk.floors f = some floor →
      floor.keyitems ≠ [] →
      (∀ it ∈ floor.keyitems, it.id ≠ i) →
      removeKeyItem now store pkId f i = setEntry store pkId (updateLastModified now pk)) ∧
    (∀ (now : String) (store : Store) (pkId f i : String) (pk : PhotoKey) (floor : Floor),
      getEntry store pkId = some pk →
      getEntry pk.floors f = some floor →
      f ≠ unassignedStr →
      floor.keyitems = [] →
      removeKeyItem now store pkId f i =
        setEntry store pkId
          (updateLastModified now
            { pk with floors := setEntry pk.floors f ⟨none, []⟩ })) ∧
    (∀ (now : String) (store : Store) (pkId f i : String) (pk : PhotoKey) (floor : Floor)
        (updI : KeyItem → KeyItem),
      getEntry store pkId = some pk →
      getEntry pk.floors f = some floor →
      (∀ it ∈ floor.keyitems, it.id ≠ i) →
      updateKeyItem now store pkId f i updI = setEntry store pkId (updateLastModified now pk)) ∧
    (∀ (now : String) (store : Store) (pkId f : String) (item : KeyItem) (pk : PhotoKey),
      getEntry store pkId = some pk →
      getEntry pk.floors f = none →
      keyitemsOf (addKeyItem now store pkId f item) pkId f = some [item] ∧
      floorplanOf (addKeyItem now store pkId f item) pkId f = none) ∧
    (∀ (now : String) (store : Store) (pkId f : String) (fpln : Floorplan) (pk : PhotoKey),
      getEntry store pkId = some pk →
      getEntry pk.floors f = none →
      floorplanOf (addFloorplan now store pkId f fpln) pkId f = some fpln ∧
      keyitemsOf (addFloorplan now store pkId f fpln) pkId f = some []) ∧
    (∀ (now : String) (store : Store) (pkId i : String) (pk : PhotoKey) (floor : Floor),
      getEntry store pkId = some pk →
      getEntry pk.floors unassignedStr = some floor →
      floorplanOf (removeKeyItem now store pkId unassignedStr i) pkId unassignedStr =
        floor.floorplan) := by
  refine ⟨?_, ?_, ?_, ?_, ?_, ?_, ?_, ?_, ?_, ?_⟩
  · intro now store pkId f fromF toF i item fpln updI updF hpk
    refine ⟨?_, ?_, ?_, ?_, ?_, ?_, ?_⟩ <;>
      simp only [removeKeyItem, updateKeyItem, moveKeyItemToFloor, addKeyItem, addFloorplan,
        updateFloorplan, removeFloorplan, hpk]
  · intro now store pkId f toF i pk updI updF hpk hfl
    refine ⟨?_, ?_, ?_, ?_, ?_⟩ <;>
      simp only [removeKeyItem, updateKeyItem, moveKeyItemToFloor, updateFloorplan,
        removeFloorplan, hpk, hfl]
  · intro now store pkId i fromF toF pk floor hpk hfl h
    have hfind : floor.keyitems.find? (fun it => it.id == i) = none := by
      rw [List.find?_eq_none]
      intro x hx
      simp only [beq_iff_eq]
      exact h x hx
    simp only [moveKeyItemToFloor, hpk, hfl, hfind]
  · intro now store pkId f pk floor updF hpk hfl hfp
    simp only [updateFloorplan, hpk, hfl, hfp]
  · intro now store pkId f i pk floor hpk hfl hne h
    rw [removeKeyItem_eq now store pkId f i pk floor hpk hfl]
    have hfilter : (floor.keyitems.filter fun it => it.id != i) = floor.keyitems :=
      filter_eq_self_of _ _ fun a ha => by
        rw [bne_iff_ne]
        exact h a ha
    have hempty : floor.keyitems.isEmpty = false := by
      cases hk : floor.keyitems with
      | nil => exact absurd hk hne
      | cons a as => rfl
    rw [hfilter, hempty]
    simp only [Bool.and_false, Bool.false_and, Bool.false_eq_true, if_false]
    rw [setEntry_self pk.floors f floor hfl]
  · intro now store pkId f i pk floor hpk hfl hne hitems
    rw [removeKeyItem_eq now store pkId f i pk floor hpk hfl]
    have hb : (f != unassignedStr) = true := by
      rw [bne_iff_ne]
      exact hne
    rw [hitems]
    cases hfp : floor.floorplan with
    | none => simp [hfp]
    | some fp => simp [hb, hfp]
  · intro now store pkId f i pk floor updI hpk hfl h
    simp only [updateKeyItem, hpk, hfl]
    have hmap : (floor.keyitems.map fun item => if item.id = i then updI item else item) =
        floor.keyitems :=
      map_eq_self_of _ _ fun a ha => if_neg (h a ha)
    rw [hmap]
    rw [setEntry_self pk.floors f floor hfl]
  · intro now store pkId f item pk hpk hfl
    constructor
    · simp only [keyitemsOf, addKeyItem, hpk, updateLastModified, getEntry_setEntry_self]
      rw [getEntry_ensureFloor_self, hfl]
      simp
    · simp only [floorplanOf, addKeyItem, hpk, updateLastModified, getEntry_setEntry_self]
      rw [getEntry_ensureFloor_self, hfl]
      simp
  · intro now store pkId f fpln pk hpk hfl
    constructor
    · simp only [floorplanOf, addFloorplan, hpk, updateLastModified, getEntry_setEntry_self]
    · simp only [keyitemsOf, addFloorplan, hpk, updateLastModified, getEntry_setEntry_self]
      rw [getEntry_ensureFloor_self, hfl]
      simp
  · intro now store pkId i pk floor hpk hfl
    rw [removeKeyItem_eq now store pkId unassignedStr i pk floor hpk hfl]
    simp only [floorplanOf, updateLastModified, getEntry_setEntry_self, bne_self_eq_false,
      Bool.false_and, Bool.false_eq_true, if_false]

/-- Witness for C10: updating or removing under a photo-key id absent from
the one-key store leaves it untouched. -/
theorem C10_noop_mutations_witness :
    removeKeyItem t1Str store1 idZ floor1Str idA = store1 ∧
    updateKeyItem t1Str store1 idZ floor1Str idA id = store1 ∧
    moveKeyItemToFloor t1Str store1 idZ idA floor1Str floor9Str = store1 ∧
    addKeyItem t1Str store1 idZ floor1Str item1 = store1 ∧
    addFloorplan t1Str store1 idZ floor1Str fpU = store1 ∧
    updateFloorplan t1Str store1 idZ floor1Str id = store1 ∧
    removeFloorplan t1Str store1 idZ floor1Str = store1 :=
  C10_noop_mutations.1 t1Str store1 idZ floor1Str floor1Str floor9Str idA item1 fpU id id
    (by decide)

end ASH
